import Mathlib

/-!
Shallow embedding of the `ronin-api-wrapper` module (src/index.js).

Strings are modelled as Lean `String` (lists of characters); JavaScript
`startsWith`, `length` and `replace` (first occurrence) are modelled over
`String.data`.  The axios HTTP client is modelled as a transport oracle
`Request → Except JsError Json`: `Except.ok body` is a successful response
whose parsed body is `body` (axios' `data.data`), `Except.error e` is any
thrown failure (network error, non-2xx status, parse failure).  Each wrapper
operation returns the pair of its JavaScript return value and the list of
HTTP requests it issued, so that "performs no network call" and "issues a
single GET" are statable.
-/

namespace Ronin

/-- JSON values, the parsed bodies carried by the HTTP client. -/
inductive Json : Type where
  | null : Json
  | bool : Bool → Json
  | num : Int → Json
  | str : String → Json
  | arr : List Json → Json
  | obj : List (String × Json) → Json

/-- an error object thrown by the HTTP client (axios). -/
structure JsError : Type where
  message : String

/-- a JavaScript value as returned by the wrapper functions: either
`undefined` (missing extraction path), a JSON value (raw body, extracted
payload, or the sentinel string), or a caught error object. -/
inductive JsValue : Type where
  | undefined : JsValue
  | json : Json → JsValue
  | error : JsError → JsValue

/-- an outbound HTTP request: method, URL, and (for POST) the JSON body. -/
inductive Request : Type where
  | get : String → Request
  | post : String → Json → Request

/-- the HTTP transport collaborator (axios): maps a request to a parsed
response body or a thrown error. -/
abbrev Transport := Request → Except JsError Json

/-- optional-chaining property access `x?.key`: objects look the key up,
every other value (including `null`) yields `none` (undefined). -/
def Json.get : Json → String → Option Json
  | Json.obj fields, key => fields.lookup key
  | _, _ => none

/-- a chain of optional-chaining accesses, e.g. `body?.pageProps?.accountInfo`. -/
def Json.getPath : Json → List String → Option Json
  | j, [] => some j
  | j, key :: keys =>
    match Json.get j key with
    | some v => Json.getPath v keys
    | none => none

/-- converts the result of an extraction chain to the returned value:
a missing key yields `undefined`, a present one yields the JSON value. -/
def extractOpt : Option Json → JsValue
  | none => JsValue.undefined
  | some j => JsValue.json j

/-- JavaScript `String.prototype.replace` with a plain-string pattern:
replaces the first occurrence of `sub` by `repl`, is the identity when
`sub` does not occur. -/
def replaceFirst (sub repl : List Char) : List Char → List Char
  | [] => if sub.isEmpty then repl else []
  | c :: cs =>
    if sub.isPrefixOf (c :: cs) then repl ++ List.drop sub.length (c :: cs)
    else c :: replaceFirst sub repl cs

/-- JavaScript `String.prototype.includes` with a plain-string pattern. -/
def containsSub (sub : List Char) : List Char → Bool
  | [] => sub.isEmpty
  | c :: cs => sub.isPrefixOf (c :: cs) || containsSub sub cs

/-- src/index.js line 3: `roninAddress.startsWith("ronin") && roninAddress.length === 46`. -/
def isRoninAddressValid (roninAddress : String) : Bool :=
  "ronin".data.isPrefixOf roninAddress.data && roninAddress.data.length == 46

/-- src/index.js line 7: `roninAddress.replace("ronin:", "0x")`. -/
def transformFromRoninAddress (roninAddress : String) : String :=
  String.mk (replaceFirst "ronin:".data "0x".data roninAddress.data)

/-- src/index.js `explorerGetAccount`: validate, GET the page-data URL with
the address in the path and in the `address` query parameter, extract
`pageProps.accountInfo`; on failure return the caught error; on invalid
address return the sentinel string without any request. -/
def explorerGetAccount (transport : Transport) (roninAddress : String) :
    JsValue × List Request :=
  if isRoninAddressValid roninAddress then
    let url := "https://explorer.roninchain.com/_next/data/MP4ApQgQgIMen7_H0KnjR/address/" ++ roninAddress ++ ".json?address=" ++ roninAddress
    match transport (Request.get url) with
    | Except.ok body => (extractOpt (Json.getPath body ["pageProps", "accountInfo"]), [Request.get url])
    | Except.error e => (JsValue.error e, [Request.get url])
  else
    (JsValue.json (Json.str "Invalid address"), [])

/-- src/index.js `explorerGetTransactions`: validate, transform the address,
GET the transactions URL, return the raw body. -/
def explorerGetTransactions (transport : Transport) (roninAddress : String)
    (from_ : Nat := 0) (size : Nat := 10) : JsValue × List Request :=
  if isRoninAddressValid roninAddress then
    let modifiedRoninAddress := transformFromRoninAddress roninAddress
    let url := "https://explorer.roninchain.com/api/txs/" ++ modifiedRoninAddress ++ "?from=" ++ toString from_ ++ "&size=" ++ toString size
    match transport (Request.get url) with
    | Except.ok body => (JsValue.json body, [Request.get url])
    | Except.error e => (JsValue.error e, [Request.get url])
  else
    (JsValue.json (Json.str "Invalid address"), [])

/-- src/index.js `explorerDecodeTransactionActions`: POST the caller-supplied
transactions wrapped under the fixed key `txs`, return the raw body;
no address validation. -/
def explorerDecodeTransactionActions (transport : Transport) (transactions : Json) :
    JsValue × List Request :=
  let url := "https://decoder.roninchain.com/decoder/actions"
  let body := Json.obj [("txs", transactions)]
  match transport (Request.post url body) with
  | Except.ok data => (JsValue.json data, [Request.post url body])
  | Except.error e => (JsValue.error e, [Request.post url body])

/-- src/index.js `explorerGetERCTransfersByRoninAddress`: no validation,
GET the token-transfer URL built from the transformed address and the
`from`, `size` and `token=ERC<suffix>` query parameters, return the raw body. -/
def explorerGetERCTransfersByRoninAddress (transport : Transport) (roninAddress : String)
    (ercSuffix : Nat := 20) (from_ : Nat := 0) (size : Nat := 10) :
    JsValue × List Request :=
  let modifiedRoninAddress := transformFromRoninAddress roninAddress
  let url := "https://explorer.roninchain.com/api/tokentxs?addr=" ++ modifiedRoninAddress ++ "&from=" ++ toString from_ ++ "&size=" ++ toString size ++ "&token=ERC" ++ toString ercSuffix
  match transport (Request.get url) with
  | Except.ok data => (JsValue.json data, [Request.get url])
  | Except.error e => (JsValue.error e, [Request.get url])

/-- src/index.js `explorerGetLatestBlocks`: GET, raw body. -/
def explorerGetLatestBlocks (transport : Transport) (size : Nat := 10) :
    JsValue × List Request :=
  let url := "https://explorer.roninchain.com/api/blocks?size=" ++ toString size
  match transport (Request.get url) with
  | Except.ok data => (JsValue.json data, [Request.get url])
  | Except.error e => (JsValue.error e, [Request.get url])

/-- src/index.js `explorerGetLatestTransactions`: GET, raw body. -/
def explorerGetLatestTransactions (transport : Transport) (size : Nat := 10) :
    JsValue × List Request :=
  let url := "https://explorer.roninchain.com/api/txs?size=" ++ toString size
  match transport (Request.get url) with
  | Except.ok data => (JsValue.json data, [Request.get url])
  | Except.error e => (JsValue.error e, [Request.get url])

/-- src/index.js `explorerGet14DayTransactionVolumes`: GET, extract `pageProps`. -/
def explorerGet14DayTransactionVolumes (transport : Transport) :
    JsValue × List Request :=
  let url := "https://explorer.roninchain.com/_next/data/MP4ApQgQgIMen7_H0KnjR/index.json"
  match transport (Request.get url) with
  | Except.ok data => (extractOpt (Json.getPath data ["pageProps"]), [Request.get url])
  | Except.error e => (JsValue.error e, [Request.get url])

/-- src/index.js `explorerGetERC20Tokens`: GET, extract `pageProps.tokens.results`. -/
def explorerGetERC20Tokens (transport : Transport) : JsValue × List Request :=
  let url := "https://explorer.roninchain.com/_next/data/MP4ApQgQgIMen7_H0KnjR/tokens.json"
  match transport (Request.get url) with
  | Except.ok data => (extractOpt (Json.getPath data ["pageProps", "tokens", "results"]), [Request.get url])
  | Except.error e => (JsValue.error e, [Request.get url])

/-- src/index.js `explorerGetERC20Transfers`: GET, extract `pageProps.transfers`. -/
def explorerGetERC20Transfers (transport : Transport) : JsValue × List Request :=
  let url := "https://explorer.roninchain.com/_next/data/MP4ApQgQgIMen7_H0KnjR/tokentxns.json"
  match transport (Request.get url) with
  | Except.ok data => (extractOpt (Json.getPath data ["pageProps", "transfers"]), [Request.get url])
  | Except.error e => (JsValue.error e, [Request.get url])

/-- src/index.js `explorerGetERC721Tokens`: GET, extract `pageProps.tokens.results`. -/
def explorerGetERC721Tokens (transport : Transport) : JsValue × List Request :=
  let url := "https://explorer.roninchain.com/_next/data/MP4ApQgQgIMen7_H0KnjR/tokens-nft.json"
  match transport (Request.get url) with
  | Except.ok data => (extractOpt (Json.getPath data ["pageProps", "tokens", "results"]), [Request.get url])
  | Except.error e => (JsValue.error e, [Request.get url])

/-- src/index.js `explorerGetERC721Transfers`: GET, extract `pageProps.transfers`. -/
def explorerGetERC721Transfers (transport : Transport) : JsValue × List Request :=
  let url := "https://explorer.roninchain.com/_next/data/MP4ApQgQgIMen7_H0KnjR/tokentxns-nft.json"
  match transport (Request.get url) with
  | Except.ok data => (extractOpt (Json.getPath data ["pageProps", "transfers"]), [Request.get url])
  | Except.error e => (JsValue.error e, [Request.get url])

/-- src/index.js `explorerGetTransactionDetails`: no validation, GET the
page-data URL with the hash in path and query, extract `pageProps.transaction`. -/
def explorerGetTransactionDetails (transport : Transport) (txHash : String) :
    JsValue × List Request :=
  let url := "https://explorer.roninchain.com/_next/data/MP4ApQgQgIMen7_H0KnjR/tx/" ++ txHash ++ ".json?txHash=" ++ txHash
  match transport (Request.get url) with
  | Except.ok data => (extractOpt (Json.getPath data ["pageProps", "transaction"]), [Request.get url])
  | Except.error e => (JsValue.error e, [Request.get url])

/-- src/index.js `explorerGetBlockDetails`: no validation, GET the page-data
URL with the block number in path and query, extract `pageProps.block`. -/
def explorerGetBlockDetails (transport : Transport) (blockNumber : Nat) :
    JsValue × List Request :=
  let url := "https://explorer.roninchain.com/_next/data/MP4ApQgQgIMen7_H0KnjR/block/" ++ toString blockNumber ++ ".json?blockID=" ++ toString blockNumber
  match transport (Request.get url) with
  | Except.ok data => (extractOpt (Json.getPath data ["pageProps", "block"]), [Request.get url])
  | Except.error e => (JsValue.error e, [Request.get url])

/-- src/index.js `exchangeGetRates`: GET, raw body. -/
def exchangeGetRates (transport : Transport) : JsValue × List Request :=
  let url := "https://exchange-rate.axieinfinity.com/"
  match transport (Request.get url) with
  | Except.ok data => (JsValue.json data, [Request.get url])
  | Except.error e => (JsValue.error e, [Request.get url])

/-- test fixture: a transport on which every request throws, modelling a
mocked connection-refused failure. -/
def failingTransport : Transport :=
  fun _ => Except.error (JsError.mk "connection refused")

/-- test fixture: a transport on which every request succeeds with the empty
JSON object as body, so every extraction path is missing. -/
def emptyBodyTransport : Transport :=
  fun _ => Except.ok (Json.obj [])

/-- test fixture: the sample valid address used throughout the documentation. -/
def sampleAddress : String :=
  "ronin:3ead4ca7305e30169e42437c74e7c81bdab7b9c3"

end Ronin

namespace Ronin

theorem replaceFirst_of_isPrefixOf (sub repl l : List Char)
    (h : sub.isPrefixOf l = true) :
    replaceFirst sub repl l = repl ++ List.drop sub.length l := by
  cases l with
  | nil =>
    cases sub with
    | nil => simp [replaceFirst]
    | cons p ps => simp [List.isPrefixOf] at h
  | cons c cs => simp [replaceFirst, h]

theorem replaceFirst_of_not_contains (sub repl l : List Char)
    (h : containsSub sub l = false) : replaceFirst sub repl l = l := by
  induction l with
  | nil =>
    simp [containsSub] at h
    simp [replaceFirst, h]
  | cons c cs ih =>
    rw [containsSub, Bool.or_eq_false_iff] at h
    rw [replaceFirst, if_neg (by simp [h.1]), ih h.2]

/-- C2: for every string `s`, the validator returns true if and only if `s`
starts with the literal prefix `ronin` and has total length exactly 46; in
particular it returns false for the empty string, strings of any other
length, and strings with a different prefix. -/
theorem c2_validator_iff (s : String) :
    isRoninAddressValid s = true ↔ ("ronin".data <+: s.data ∧ s.data.length = 46) := by
  simp [isRoninAddressValid, List.isPrefixOf_iff_prefix]

/-- C4 counterexample: a 46-character string starting with `ronin` but not
with `ronin:` is accepted by the validator, yet the transformer leaves it
unchanged and its output does not start with `0x`. -/
theorem c4_counterexample :
    isRoninAddressValid "roninXaaaaaaaaaaaaaaaaaaaaaaaaaaaaaaaaaaaaaaaa" = true ∧
    transformFromRoninAddress "roninXaaaaaaaaaaaaaaaaaaaaaaaaaaaaaaaaaaaaaaaa" =
      "roninXaaaaaaaaaaaaaaaaaaaaaaaaaaaaaaaaaaaaaaaa" ∧
    "0x".data.isPrefixOf
      (transformFromRoninAddress "roninXaaaaaaaaaaaaaaaaaaaaaaaaaaaaaaaaaaaaaaaa").data
      = false := by
  refine ⟨rfl, ?_, rfl⟩
  rfl

/-- C4 (amended): for every address string accepted by the validator that
moreover starts with `ronin:`, the transformer yields `0x` followed by the
input with its 6-character prefix removed. -/
theorem c4_transform_of_colon_prefixed (s : String)
    (_hvalid : isRoninAddressValid s = true)
    (hcolon : "ronin:".data.isPrefixOf s.data = true) :
    (transformFromRoninAddress s).data = "0x".data ++ List.drop 6 s.data := by
  unfold transformFromRoninAddress
  rw [replaceFirst_of_isPrefixOf _ _ _ hcolon]
  rfl

/-- C4 witness: the amended theorem applied to the sample valid address. -/
theorem c4_transform_witness :
    isRoninAddressValid "ronin:3ead4ca7305e30169e42437c74e7c81bdab7b9c3" = true ∧
    "ronin:".data.isPrefixOf "ronin:3ead4ca7305e30169e42437c74e7c81bdab7b9c3".data = true ∧
    (transformFromRoninAddress "ronin:3ead4ca7305e30169e42437c74e7c81bdab7b9c3").data =
      "0x".data ++ List.drop 6 "ronin:3ead4ca7305e30169e42437c74e7c81bdab7b9c3".data :=
  ⟨rfl, rfl, c4_transform_of_colon_prefixed _ rfl rfl⟩

/-- C5 counterexample: at a concrete input whose transformation no longer
contains `ronin:`, applying the transformer twice equals applying it once —
the second application being a no-op means the double application agrees
with the single one, refuting the claimed non-idempotence. -/
theorem c5_counterexample :
    containsSub "ronin:".data
      (transformFromRoninAddress "ronin:3ead4ca7305e30169e42437c74e7c81bdab7b9c3").data
      = false ∧
    transformFromRoninAddress
        (transformFromRoninAddress "ronin:3ead4ca7305e30169e42437c74e7c81bdab7b9c3") =
      transformFromRoninAddress "ronin:3ead4ca7305e30169e42437c74e7c81bdab7b9c3" := by
  exact ⟨rfl, rfl⟩

/-- C5 (amended): whenever the result of the first application no longer
contains the literal substring `ronin:`, the second application is a no-op,
so applying the transformer twice equals applying it once. -/
theorem c5_second_application_noop (s : String)
    (h : containsSub "ronin:".data (transformFromRoninAddress s).data = false) :
    transformFromRoninAddress (transformFromRoninAddress s) = transformFromRoninAddress s := by
  have h2 := replaceFirst_of_not_contains "ronin:".data "0x".data
    (transformFromRoninAddress s).data h
  show String.mk (replaceFirst "ronin:".data "0x".data (transformFromRoninAddress s).data) =
    transformFromRoninAddress s
  rw [h2]

/-- C5 witness: the amended theorem applied to a concrete input. -/
theorem c5_noop_witness :
    containsSub "ronin:".data (transformFromRoninAddress "ronin:abc").data = false ∧
    transformFromRoninAddress (transformFromRoninAddress "ronin:abc") =
      transformFromRoninAddress "ronin:abc" :=
  ⟨rfl, c5_second_application_noop "ronin:abc" rfl⟩

end Ronin

namespace Ronin

/-- C1: for every operation exported by the wrapper, when the underlying
HTTP request throws, the operation resolves normally with the caught error
object itself as its return value; it never rejects or re-throws. -/
theorem c1_transport_failure_returned_as_value (transport : Transport) (e : JsError)
    (hfail : ∀ r, transport r = Except.error e)
    (a : String) (ha : isRoninAddressValid a = true)
    (transactions : Json) (ercSuffix from_ size : Nat)
    (txHash : String) (blockNumber : Nat) :
    (explorerGetAccount transport a).1 = JsValue.error e ∧
    (explorerGetTransactions transport a from_ size).1 = JsValue.error e ∧
    (explorerDecodeTransactionActions transport transactions).1 = JsValue.error e ∧
    (explorerGetERCTransfersByRoninAddress transport a ercSuffix from_ size).1 = JsValue.error e ∧
    (explorerGetLatestBlocks transport size).1 = JsValue.error e ∧
    (explorerGetLatestTransactions transport size).1 = JsValue.error e ∧
    (explorerGet14DayTransactionVolumes transport).1 = JsValue.error e ∧
    (explorerGetERC20Tokens transport).1 = JsValue.error e ∧
    (explorerGetERC20Transfers transport).1 = JsValue.error e ∧
    (explorerGetERC721Tokens transport).1 = JsValue.error e ∧
    (explorerGetERC721Transfers transport).1 = JsValue.error e ∧
    (explorerGetTransactionDetails transport txHash).1 = JsValue.error e ∧
    (explorerGetBlockDetails transport blockNumber).1 = JsValue.error e ∧
    (exchangeGetRates transport).1 = JsValue.error e := by
  simp [explorerGetAccount, explorerGetTransactions, explorerDecodeTransactionActions,
    explorerGetERCTransfersByRoninAddress, explorerGetLatestBlocks,
    explorerGetLatestTransactions, explorerGet14DayTransactionVolumes,
    explorerGetERC20Tokens, explorerGetERC20Transfers, explorerGetERC721Tokens,
    explorerGetERC721Transfers, explorerGetTransactionDetails, explorerGetBlockDetails,
    exchangeGetRates, ha, hfail]

/-- C1 witness: the failing transport at the sample valid address. -/
theorem c1_witness :
    (∀ r, failingTransport r = Except.error (JsError.mk "connection refused")) ∧
    isRoninAddressValid sampleAddress = true ∧
    ((explorerGetAccount failingTransport sampleAddress).1 =
        JsValue.error (JsError.mk "connection refused") ∧
      (explorerGetTransactions failingTransport sampleAddress 0 10).1 =
        JsValue.error (JsError.mk "connection refused") ∧
      (explorerDecodeTransactionActions failingTransport (Json.arr [])).1 =
        JsValue.error (JsError.mk "connection refused") ∧
      (explorerGetERCTransfersByRoninAddress failingTransport sampleAddress 20 0 10).1 =
        JsValue.error (JsError.mk "connection refused") ∧
      (explorerGetLatestBlocks failingTransport 10).1 =
        JsValue.error (JsError.mk "connection refused") ∧
      (explorerGetLatestTransactions failingTransport 10).1 =
        JsValue.error (JsError.mk "connection refused") ∧
      (explorerGet14DayTransactionVolumes failingTransport).1 =
        JsValue.error (JsError.mk "connection refused") ∧
      (explorerGetERC20Tokens failingTransport).1 =
        JsValue.error (JsError.mk "connection refused") ∧
      (explorerGetERC20Transfers failingTransport).1 =
        JsValue.error (JsError.mk "connection refused") ∧
      (explorerGetERC721Tokens failingTransport).1 =
        JsValue.error (JsError.mk "connection refused") ∧
      (explorerGetERC721Transfers failingTransport).1 =
        JsValue.error (JsError.mk "connection refused") ∧
      (explorerGetTransactionDetails failingTransport "0xabc").1 =
        JsValue.error (JsError.mk "connection refused") ∧
      (explorerGetBlockDetails failingTransport 1).1 =
        JsValue.error (JsError.mk "connection refused") ∧
      (exchangeGetRates failingTransport).1 =
        JsValue.error (JsError.mk "connection refused")) :=
  ⟨fun _ => rfl, rfl,
    c1_transport_failure_returned_as_value failingTransport (JsError.mk "connection refused")
      (fun _ => rfl) sampleAddress rfl (Json.arr []) 20 0 10 "0xabc" 1⟩

/-- C3: for every string on which the validator returns false, each
address-validated operation returns exactly the string "Invalid address"
as a value and performs no network call (its request list is empty). -/
theorem c3_invalid_address_sentinel_no_request (transport : Transport) (a : String)
    (ha : isRoninAddressValid a = false) (from_ size : Nat) :
    explorerGetAccount transport a = (JsValue.json (Json.str "Invalid address"), []) ∧
    explorerGetTransactions transport a from_ size =
      (JsValue.json (Json.str "Invalid address"), []) := by
  simp [explorerGetAccount, explorerGetTransactions, ha]

/-- C3 witness: the sentinel at the malformed address "foo". -/
theorem c3_witness :
    isRoninAddressValid "foo" = false ∧
    (explorerGetAccount failingTransport "foo" =
        (JsValue.json (Json.str "Invalid address"), []) ∧
      explorerGetTransactions failingTransport "foo" 0 10 =
        (JsValue.json (Json.str "Invalid address"), [])) :=
  ⟨rfl, c3_invalid_address_sentinel_no_request failingTransport "foo" rfl 0 10⟩

end Ronin

namespace Ronin

/-- C6: for the valid 46-character sample address, the get-account operation
issues a single GET whose URL contains the address twice (path segment and
`address` query parameter) and, on success, returns the value extracted at
`pageProps.accountInfo` of the response body. -/
theorem c6_get_account_single_get_and_extraction (transport : Transport) (body v : Json)
    (hresp : transport (Request.get
        ("https://explorer.roninchain.com/_next/data/MP4ApQgQgIMen7_H0KnjR/address/" ++
          "ronin:3ead4ca7305e30169e42437c74e7c81bdab7b9c3" ++ ".json?address=" ++
          "ronin:3ead4ca7305e30169e42437c74e7c81bdab7b9c3")) = Except.ok body)
    (hextract : Json.getPath body ["pageProps", "accountInfo"] = some v) :
    explorerGetAccount transport "ronin:3ead4ca7305e30169e42437c74e7c81bdab7b9c3" =
      (JsValue.json v,
        [Request.get
          ("https://explorer.roninchain.com/_next/data/MP4ApQgQgIMen7_H0KnjR/address/" ++
            "ronin:3ead4ca7305e30169e42437c74e7c81bdab7b9c3" ++ ".json?address=" ++
            "ronin:3ead4ca7305e30169e42437c74e7c81bdab7b9c3")]) := by
  have hv : isRoninAddressValid "ronin:3ead4ca7305e30169e42437c74e7c81bdab7b9c3" = true := rfl
  simp only [explorerGetAccount, hv, if_true]
  rw [hresp]
  simp [hextract, extractOpt]

/-- C6 witness: a mocked response carrying an account object. -/
theorem c6_witness :
    (fun _ => Except.ok (Json.obj [("pageProps", Json.obj [("accountInfo", Json.str "acct")])])
        : Transport)
      (Request.get
        ("https://explorer.roninchain.com/_next/data/MP4ApQgQgIMen7_H0KnjR/address/" ++
          "ronin:3ead4ca7305e30169e42437c74e7c81bdab7b9c3" ++ ".json?address=" ++
          "ronin:3ead4ca7305e30169e42437c74e7c81bdab7b9c3")) =
      Except.ok (Json.obj [("pageProps", Json.obj [("accountInfo", Json.str "acct")])]) ∧
    Json.getPath (Json.obj [("pageProps", Json.obj [("accountInfo", Json.str "acct")])])
        ["pageProps", "accountInfo"] = some (Json.str "acct") ∧
    explorerGetAccount
        (fun _ =>
          Except.ok (Json.obj [("pageProps", Json.obj [("accountInfo", Json.str "acct")])]))
        "ronin:3ead4ca7305e30169e42437c74e7c81bdab7b9c3" =
      (JsValue.json (Json.str "acct"),
        [Request.get
          ("https://explorer.roninchain.com/_next/data/MP4ApQgQgIMen7_H0KnjR/address/" ++
            "ronin:3ead4ca7305e30169e42437c74e7c81bdab7b9c3" ++ ".json?address=" ++
            "ronin:3ead4ca7305e30169e42437c74e7c81bdab7b9c3")]) :=
  ⟨rfl, rfl,
    c6_get_account_single_get_and_extraction
      (fun _ => Except.ok (Json.obj [("pageProps", Json.obj [("accountInfo", Json.str "acct")])]))
      (Json.obj [("pageProps", Json.obj [("accountInfo", Json.str "acct")])])
      (Json.str "acct") rfl rfl⟩

/-- C7: the decode-transaction-actions operation, for any caller-supplied
transactions value, performs no address validation, issues a single POST
whose body is exactly the object wrapping that value unchanged under the
key `txs`, and returns the raw parsed response body. -/
theorem c7_decode_post_body_verbatim (transport : Transport) (transactions body : Json)
    (hresp : transport (Request.post "https://decoder.roninchain.com/decoder/actions"
        (Json.obj [("txs", transactions)])) = Except.ok body) :
    explorerDecodeTransactionActions transport transactions =
      (JsValue.json body,
        [Request.post "https://decoder.roninchain.com/decoder/actions"
          (Json.obj [("txs", transactions)])]) := by
  simp only [explorerDecodeTransactionActions]
  rw [hresp]

/-- C7 witness: a concrete transactions array. -/
theorem c7_witness :
    (fun _ => Except.ok Json.null : Transport)
      (Request.post "https://decoder.roninchain.com/decoder/actions"
        (Json.obj [("txs",
          Json.arr [Json.obj [("contractAddress", Json.str "0xc"), ("callData", Json.str "0xd"),
            ("logs", Json.arr [])]])])) = Except.ok Json.null ∧
    explorerDecodeTransactionActions (fun _ => Except.ok Json.null)
        (Json.arr [Json.obj [("contractAddress", Json.str "0xc"), ("callData", Json.str "0xd"),
          ("logs", Json.arr [])]]) =
      (JsValue.json Json.null,
        [Request.post "https://decoder.roninchain.com/decoder/actions"
          (Json.obj [("txs",
            Json.arr [Json.obj [("contractAddress", Json.str "0xc"), ("callData", Json.str "0xd"),
              ("logs", Json.arr [])]])])]) :=
  ⟨rfl,
    c7_decode_post_body_verbatim (fun _ => Except.ok Json.null)
      (Json.arr [Json.obj [("contractAddress", Json.str "0xc"), ("callData", Json.str "0xd"),
        ("logs", Json.arr [])]]) Json.null rfl⟩

/-- C8: the get-ERC-transfers-by-address operation performs no address
validation (it issues the request for any address argument) and builds its
single GET URL from the hex-transformed address together with the `from`,
`size` and `token=ERC<ercSuffix>` query parameters. -/
theorem c8_erc_transfers_no_validation_url (transport : Transport) (roninAddress : String)
    (ercSuffix from_ size : Nat) (body : Json)
    (hresp : transport (Request.get
        ("https://explorer.roninchain.com/api/tokentxs?addr=" ++
          transformFromRoninAddress roninAddress ++ "&from=" ++ toString from_ ++
          "&size=" ++ toString size ++ "&token=ERC" ++ toString ercSuffix)) = Except.ok body) :
    explorerGetERCTransfersByRoninAddress transport roninAddress ercSuffix from_ size =
      (JsValue.json body,
        [Request.get
          ("https://explorer.roninchain.com/api/tokentxs?addr=" ++
            transformFromRoninAddress roninAddress ++ "&from=" ++ toString from_ ++
            "&size=" ++ toString size ++ "&token=ERC" ++ toString ercSuffix)]) := by
  simp only [explorerGetERCTransfersByRoninAddress]
  rw [hresp]

/-- C8 witness: a validator-rejected address still issues the request. -/
theorem c8_witness :
    isRoninAddressValid "foo" = false ∧
    (fun _ => Except.ok Json.null : Transport)
      (Request.get
        ("https://explorer.roninchain.com/api/tokentxs?addr=" ++
          transformFromRoninAddress "foo" ++ "&from=" ++ toString 0 ++
          "&size=" ++ toString 10 ++ "&token=ERC" ++ toString 20)) = Except.ok Json.null ∧
    explorerGetERCTransfersByRoninAddress (fun _ => Except.ok Json.null) "foo" 20 0 10 =
      (JsValue.json Json.null,
        [Request.get
          ("https://explorer.roninchain.com/api/tokentxs?addr=" ++
            transformFromRoninAddress "foo" ++ "&from=" ++ toString 0 ++
            "&size=" ++ toString 10 ++ "&token=ERC" ++ toString 20)]) :=
  ⟨rfl, rfl,
    c8_erc_transfers_no_validation_url (fun _ => Except.ok Json.null) "foo" 20 0 10
      Json.null rfl⟩

end Ronin

namespace Ronin

/-- C9: for every operation whose result is extracted from a nested path of
the response, a successful response that lacks a key along the extraction
path makes the operation return the undefined value; the error branch is
not taken and nothing is thrown. -/
theorem c9_missing_extraction_path_yields_undefined (transport : Transport) (body : Json)
    (hok : ∀ r, transport r = Except.ok body)
    (a : String) (ha : isRoninAddressValid a = true)
    (txHash : String) (blockNumber : Nat)
    (h1 : Json.getPath body ["pageProps", "accountInfo"] = none)
    (h2 : Json.getPath body ["pageProps"] = none)
    (h3 : Json.getPath body ["pageProps", "tokens", "results"] = none)
    (h4 : Json.getPath body ["pageProps", "transfers"] = none)
    (h5 : Json.getPath body ["pageProps", "transaction"] = none)
    (h6 : Json.getPath body ["pageProps", "block"] = none) :
    (explorerGetAccount transport a).1 = JsValue.undefined ∧
    (explorerGet14DayTransactionVolumes transport).1 = JsValue.undefined ∧
    (explorerGetERC20Tokens transport).1 = JsValue.undefined ∧
    (explorerGetERC20Transfers transport).1 = JsValue.undefined ∧
    (explorerGetERC721Tokens transport).1 = JsValue.undefined ∧
    (explorerGetERC721Transfers transport).1 = JsValue.undefined ∧
    (explorerGetTransactionDetails transport txHash).1 = JsValue.undefined ∧
    (explorerGetBlockDetails transport blockNumber).1 = JsValue.undefined := by
  simp [explorerGetAccount, explorerGet14DayTransactionVolumes, explorerGetERC20Tokens,
    explorerGetERC20Transfers, explorerGetERC721Tokens, explorerGetERC721Transfers,
    explorerGetTransactionDetails, explorerGetBlockDetails,
    hok, ha, h1, h2, h3, h4, h5, h6, extractOpt]

/-- C9 witness: a successful response whose body is the empty object, so
every extraction path is missing. -/
theorem c9_witness :
    (∀ r, emptyBodyTransport r = Except.ok (Json.obj [])) ∧
    isRoninAddressValid sampleAddress = true ∧
    Json.getPath (Json.obj []) ["pageProps", "accountInfo"] = none ∧
    ((explorerGetAccount emptyBodyTransport sampleAddress).1 = JsValue.undefined ∧
      (explorerGet14DayTransactionVolumes emptyBodyTransport).1 = JsValue.undefined ∧
      (explorerGetERC20Tokens emptyBodyTransport).1 = JsValue.undefined ∧
      (explorerGetERC20Transfers emptyBodyTransport).1 = JsValue.undefined ∧
      (explorerGetERC721Tokens emptyBodyTransport).1 = JsValue.undefined ∧
      (explorerGetERC721Transfers emptyBodyTransport).1 = JsValue.undefined ∧
      (explorerGetTransactionDetails emptyBodyTransport "0xabc").1 = JsValue.undefined ∧
      (explorerGetBlockDetails emptyBodyTransport 1).1 = JsValue.undefined) :=
  ⟨fun _ => rfl, rfl, rfl,
    c9_missing_extraction_path_yields_undefined emptyBodyTransport (Json.obj [])
      (fun _ => rfl) sampleAddress rfl "0xabc" 1 rfl rfl rfl rfl rfl rfl⟩

/-- C10: the pagination and suffix parameters default as in the source:
get-transactions uses from=0 and size=10, get-ERC-transfers uses
ercSuffix=20, from=0 and size=10, latest-blocks and latest-transactions use
size=10, so each call with omitted arguments equals the call with those
explicit values. -/
theorem c10_default_parameters (transport : Transport) (roninAddress : String) :
    explorerGetTransactions transport roninAddress =
      explorerGetTransactions transport roninAddress 0 10 ∧
    explorerGetERCTransfersByRoninAddress transport roninAddress =
      explorerGetERCTransfersByRoninAddress transport roninAddress 20 0 10 ∧
    explorerGetLatestBlocks transport = explorerGetLatestBlocks transport 10 ∧
    explorerGetLatestTransactions transport = explorerGetLatestTransactions transport 10 :=
  ⟨rfl, rfl, rfl, rfl⟩

end Ronin
